import Mathlib

/-!
Shallow embedding of the eDocufy authentication screens:
`src/Authentication/Login_Screen.tsx`, `src/Authentication/SignUp_Screen.tsx`
and the unnamed sign-up variant (`src/unnamed/part_000`).

The handlers are straight-line async call chains; we embed them as pure
functions from the form fields and an environment (the results the external
services would return) to a result record carrying the external calls made,
the final displayed error, the navigations performed, and the loading-flag
transitions.  JavaScript string truthiness (`!s`, `s || d`) is modelled
explicitly, as is `String.prototype.trim` and the two regular expressions
used for field validation.
-/

namespace EDocufy

/-- Registration form fields (`FormData` in `SignUp_Screen.tsx`). -/
structure FormData where
  name : String
  surname : String
  idNumber : String
  phone : String
  password : String
  confirmPassword : String
deriving DecidableEq, Repr

/-- Login form fields (`useState({ idNumber: '', password: '' })`). -/
structure LoginForm where
  idNumber : String
  password : String
deriving DecidableEq, Repr

/-- JavaScript `s || d` for strings: the empty string is falsy. -/
def jsOr (s d : String) : String :=
  if s.isEmpty then d else s

/-- JavaScript `m || d` where `m` may be absent (`undefined`) or a string. -/
def jsOrOpt (m : Option String) (d : String) : String :=
  match m with
  | some s => jsOr s d
  | none => d

/-- The whitespace characters stripped by `String.prototype.trim` (ASCII core). -/
def jsWhitespaceChar (c : Char) : Bool :=
  c = ' ' || c = '\t' || c = '\n' || c = '\r' || c = '\x0b' || c = '\x0c'

/-- JavaScript `s.trim()`: strip whitespace from both ends. -/
def jsTrim (s : String) : String :=
  ⟨((s.data.dropWhile jsWhitespaceChar).reverse.dropWhile jsWhitespaceChar).reverse⟩

/-- `l` consists only of digits and its length is between `lo` and `hi`. -/
def digitsBetween (l : List Char) (lo hi : Nat) : Bool :=
  l.all Char.isDigit && decide (lo ≤ l.length) && decide (l.length ≤ hi)

/-- The test `/^\d{13}$/.test(s)`: exactly 13 digit characters. -/
def digits13 (s : String) : Bool :=
  s.data.all Char.isDigit && decide (s.length = 13)

/-- The test `/^\+?\d{10,15}$/.test(s)`: the regex engine consumes an optional
leading `'+'` and then requires 10 to 15 digits up to the end of the string. -/
def phoneRe (s : String) : Bool :=
  if s.data.head? = some '+' then digitsBetween s.data.tail 10 15
  else digitsBetween s.data 10 15

/-- `validateForm` of `SignUp_Screen.tsx` (lines 35-45); identical in the
unnamed variant (`part_000`, lines 39-48).  Returns `none` for a valid form
or the single error message of the first failing rule. -/
def validateForm (f : FormData) : Option String :=
  if f.name.isEmpty || f.surname.isEmpty || f.idNumber.isEmpty || f.phone.isEmpty
      || f.password.isEmpty || f.confirmPassword.isEmpty then
    some "Please fill in all fields."
  else if ! digits13 f.idNumber then some "ID Number must be 13 digits."
  else if ! phoneRe f.phone then some "Invalid phone number."
  else if decide (f.password.length < 8) then some "Password must be at least 8 characters."
  else if f.password != f.confirmPassword then some "Passwords do not match."
  else none

/-- `validateForm` of `Login_Screen.tsx` (lines 16-22).  Note the message
text: `'ID must be 13 digits.'`. -/
def validateLoginForm (f : LoginForm) : Option String :=
  if f.idNumber.isEmpty || f.password.isEmpty then some "Please fill in all fields."
  else if ! digits13 f.idNumber then some "ID must be 13 digits."
  else none

/-! ### Spec-side validator (refinement target for C1)

The specification (§4.1) describes the registration validator as an ordered
rule list where the first failing rule wins.  We transcribe that rule list
verbatim and select the first rule whose condition holds. -/

/-- Modelled from the spec §4.1 wording: "optional leading `+` followed by
10-15 digits" — either the whole string is 10-15 digits, or it is a `'+'`
followed by 10-15 digits. -/
def specPhoneOk (s : String) : Bool :=
  digitsBetween s.data 10 15
  || (s.data.head? = some '+' && digitsBetween s.data.tail 10 15)

/-- Modelled from the spec §4.1: the ordered rule list (condition, message). -/
def specRules (f : FormData) : List (Bool × String) :=
  [ (f.name.isEmpty || f.surname.isEmpty || f.idNumber.isEmpty || f.phone.isEmpty
      || f.password.isEmpty || f.confirmPassword.isEmpty,
     "Please fill in all fields."),
    (! (f.idNumber.data.all Char.isDigit && decide (f.idNumber.length = 13)),
     "ID Number must be 13 digits."),
    (! specPhoneOk f.phone, "Invalid phone number."),
    (decide (f.password.length < 8), "Password must be at least 8 characters."),
    (f.password != f.confirmPassword, "Passwords do not match.") ]

/-- Modelled from the spec §4.1: the first failing rule wins; a valid form
yields no error. -/
def specValidate (f : FormData) : Option String :=
  (List.find? (fun r => r.1) (specRules f)).map (fun r => r.2)

theorem dropWhile_cons_of_neg {p : Char → Bool} {a : Char} {l : List Char}
    (h : p a = false) : List.dropWhile p (a :: l) = a :: l := by
  simp [List.dropWhile, h]

/-- The synthetic email `user<idNumber>@example.com` starts with `'u'` and
ends with `'m'`, so JavaScript `trim()` leaves it unchanged, whatever the
`idNumber` string is. -/
theorem jsTrim_wrap (id : String) :
    jsTrim ("user" ++ id ++ "@example.com") = "user" ++ id ++ "@example.com" := by
  apply String.ext
  show ((("user" ++ id ++ "@example.com").data.dropWhile jsWhitespaceChar).reverse.dropWhile
      jsWhitespaceChar).reverse = ("user" ++ id ++ "@example.com").data
  have hdata : ("user" ++ id ++ "@example.com").data
      = 'u' :: 's' :: 'e' :: 'r'
        :: (id.data ++ ['@', 'e', 'x', 'a', 'm', 'p', 'l', 'e', '.', 'c', 'o', 'm']) := by
    rw [String.data_append, String.data_append]
    rfl
  rw [hdata, dropWhile_cons_of_neg (by rfl)]
  have hrev : ('u' :: 's' :: 'e' :: 'r'
        :: (id.data ++ ['@', 'e', 'x', 'a', 'm', 'p', 'l', 'e', '.', 'c', 'o', 'm'])).reverse
      = 'm' :: 'o' :: 'c' :: '.' :: 'e' :: 'l' :: 'p' :: 'm' :: 'a' :: 'x' :: 'e' :: '@'
        :: (id.data.reverse ++ ['r', 'e', 's', 'u']) := by
    simp
  rw [hrev, dropWhile_cons_of_neg (by rfl), ← hrev, List.reverse_reverse]

theorem specPhoneOk_eq_phoneRe (s : String) : specPhoneOk s = phoneRe s := by
  unfold specPhoneOk phoneRe
  by_cases h : s.data.head? = some '+'
  · have hcons : s.data = '+' :: s.data.tail := by
      cases hd : s.data with
      | nil => rw [hd] at h; simp at h
      | cons c r =>
        rw [hd] at h
        simp only [List.head?] at h
        cases h
        simp
    rw [if_pos h]
    have hfull : digitsBetween s.data 10 15 = false := by
      rw [hcons]
      unfold digitsBetween
      simp [Char.isDigit]
    rw [hfull, h]
    simp
  · rw [if_neg h]
    simp [h]

/-! ### External services: results and calls

The handlers await three kinds of external operations (Supabase citizen
lookup, auth sign-up, linking insert) and the login fetch.  The environment
fixes the result each operation would return; the handler records the calls
it actually issues. -/

/-- A Supabase/PostgREST error object: `message` and `code` fields. -/
structure SbError where
  message : String
  code : String
deriving DecidableEq, Repr

/-- A row of the `citizens` table as selected by the lookup. -/
structure Citizen where
  citizen_id : String
  first_name : String
  last_name : String
deriving DecidableEq, Repr

/-- Result of `supabase.from('citizens').select(...).or(...).single()`:
a `data`/`error` pair. -/
structure LookupResult where
  data : Option Citizen
  error : Option SbError
deriving DecidableEq, Repr

/-- The created auth user (`authData.user`), possibly absent. -/
structure AuthUser where
  id : String
deriving DecidableEq, Repr

/-- Result of `supabase.auth.signUp(...)`: a `data.user`/`error` pair. -/
structure SignUpResult where
  user : Option AuthUser
  error : Option SbError
deriving DecidableEq, Repr

/-- Result of `supabase.from('users').insert(...)`: only `error` is used. -/
structure InsertResult where
  error : Option SbError
deriving DecidableEq, Repr

/-- Environment for `SignUp_Screen.tsx`'s `handleRegister`: the results the
three awaited Supabase operations would return, in program order. -/
structure RegEnv where
  lookup : LookupResult
  signUp : SignUpResult
  insert : InsertResult
deriving DecidableEq, Repr

/-- An external call issued by a handler, with the arguments passed. -/
inductive ExtCall where
  /-- The citizen lookup query. -/
  | citizenLookup
  /-- `supabase.auth.signUp({email, password, phone})` (SignUp_Screen.tsx). -/
  | authSignUp (email pw phone : String)
  /-- `supabase.auth.signUp({email, password, options.data})` (part_000). -/
  | authSignUpMeta (email pw name surname idNumber phone : String)
  /-- `supabase.from('users').insert({user_id, citizen_id, email, phone})`. -/
  | usersInsert (user_id : Option String) (citizen_id email phone : String)
deriving DecidableEq, Repr

/-- Observable outcome of one run of a submit handler. -/
structure RunResult where
  calls : List ExtCall
  error : String
  navigations : List String
  loadingEvents : List Bool
deriving DecidableEq, Repr

/-- The body of the `try` block of `handleRegister` (SignUp_Screen.tsx,
lines 57-100): citizen lookup, auth sign-up, linking insert; a thrown
error is returned as its `message` string. -/
def registerTry (form : FormData) (env : RegEnv) :
    List ExtCall × Option String × List String :=
  if env.lookup.error.isSome || env.lookup.data.isNone then
    ([ExtCall.citizenLookup],
     some "No matching record found in government database.", [])
  else
    match env.lookup.data with
    | none =>
        ([ExtCall.citizenLookup],
         some "No matching record found in government database.", [])
    | some citizen =>
      let fakeEmail := "user" ++ form.idNumber ++ "@example.com"
      let signUpCall := ExtCall.authSignUp (jsTrim fakeEmail)
        (jsTrim form.password) (jsTrim form.phone)
      match env.signUp.error with
      | some e => ([ExtCall.citizenLookup, signUpCall], some e.message, [])
      | none =>
        let insertCall := ExtCall.usersInsert (env.signUp.user.map AuthUser.id)
          citizen.citizen_id fakeEmail form.phone
        match env.insert.error with
        | some e =>
          if e.code != "23505" then
            ([ExtCall.citizenLookup, signUpCall, insertCall], some e.message, [])
          else
            ([ExtCall.citizenLookup, signUpCall, insertCall], none, ["/login"])
        | none =>
          ([ExtCall.citizenLookup, signUpCall, insertCall], none, ["/login"])

/-- `handleRegister` of `SignUp_Screen.tsx` (lines 47-106): validate, then
`setLoading(true)`, run the try block, catch (`err.message || 'Registration
failed.'`), finally `setLoading(false)`. -/
def handleRegister (form : FormData) (env : RegEnv) : RunResult :=
  match validateForm form with
  | some msg => { calls := [], error := msg, navigations := [], loadingEvents := [] }
  | none =>
    let t := registerTry form env
    { calls := t.1
      error := match t.2.1 with
        | some m => jsOr m "Registration failed."
        | none => ""
      navigations := t.2.2
      loadingEvents := [true, false] }

/-- `handleRegister` of the unnamed variant (`part_000`, lines 50-86):
validate, then a single `supabase.auth.signUp` call with profile metadata;
success navigates to `/login`, an error is displayed via
`err.message || 'Registration failed.'`. -/
def handleRegisterV2 (form : FormData) (senv : SignUpResult) : RunResult :=
  match validateForm form with
  | some msg => { calls := [], error := msg, navigations := [], loadingEvents := [] }
  | none =>
    let email := "user" ++ form.idNumber ++ "@example.com"
    let call := ExtCall.authSignUpMeta email form.password form.name form.surname
      form.idNumber form.phone
    match senv.error with
    | some e =>
        { calls := [call], error := jsOr e.message "Registration failed."
          navigations := [], loadingEvents := [true, false] }
    | none =>
        { calls := [call], error := "", navigations := ["/login"]
          loadingEvents := [true, false] }

/-- The JSON body of the login response: optional `token` and `message`. -/
structure LoginBody where
  token : Option String
  message : Option String
deriving DecidableEq, Repr

/-- The login fetch response: `ok` status plus parsed body. -/
structure LoginResponse where
  ok : Bool
  body : LoginBody
deriving DecidableEq, Repr

/-- Observable outcome of one run of `handleLogin`, with the local-storage
writes performed. -/
structure LoginRun where
  storageWrites : List (String × String)
  error : String
  navigations : List String
  loadingEvents : List Bool
deriving DecidableEq, Repr

/-- `handleLogin` of `Login_Screen.tsx` (lines 24-59): validate, fetch the
login endpoint, on non-ok status throw `data.message || 'Login failed.'`,
else write a truthy token to local storage under key `token` and navigate
to `/home`; catch displays `err.message || 'Login failed. Check ID and
password.'`; finally clears loading. -/
def handleLogin (form : LoginForm) (resp : LoginResponse) : LoginRun :=
  match validateLoginForm form with
  | some msg =>
      { storageWrites := [], error := msg, navigations := [], loadingEvents := [] }
  | none =>
    if ! resp.ok then
      { storageWrites := []
        error := jsOr (jsOrOpt resp.body.message "Login failed.")
          "Login failed. Check ID and password."
        navigations := [], loadingEvents := [true, false] }
    else
      let writes := match resp.body.token with
        | some t => if t.isEmpty then [] else [("token", t)]
        | none => []
      { storageWrites := writes, error := "", navigations := ["/home"]
        loadingEvents := [true, false] }

/-! ### Sample concrete inputs (used by witnesses and counterexamples) -/

/-- A registration form that passes every validation rule. -/
def sampleForm : FormData :=
  { name := "Ann", surname := "Botha", idNumber := "9001015009087",
    phone := "+27123456789", password := "password123",
    confirmPassword := "password123" }

/-- A login form that passes validation. -/
def sampleLogin : LoginForm :=
  { idNumber := "9001015009087", password := "secretpw" }

/-- A matched citizen row. -/
def sampleCitizen : Citizen :=
  { citizen_id := "c-42", first_name := "Ann", last_name := "Botha" }

/-- Environment: citizen lookup fails (zero rows), later steps would succeed. -/
def envNoCitizen : RegEnv :=
  { lookup := { data := none, error := some { message := "0 rows", code := "PGRST116" } }
    signUp := { user := some { id := "u-1" }, error := none }
    insert := { error := none } }

/-- Environment: every external operation succeeds. -/
def envAllOk : RegEnv :=
  { lookup := { data := some sampleCitizen, error := none }
    signUp := { user := some { id := "u-1" }, error := none }
    insert := { error := none } }

/-- Environment: lookup and sign-up succeed, the linking insert fails with a
non-duplicate code and an empty message. -/
def envInsertEmptyMsg : RegEnv :=
  { lookup := { data := some sampleCitizen, error := none }
    signUp := { user := some { id := "u-1" }, error := none }
    insert := { error := some { message := "", code := "500" } } }

/-- Environment: lookup and sign-up succeed, the linking insert fails with a
non-duplicate code and message `"boom"`. -/
def envInsertOther : RegEnv :=
  { lookup := { data := some sampleCitizen, error := none }
    signUp := { user := some { id := "u-1" }, error := none }
    insert := { error := some { message := "boom", code := "42P01" } } }

/-- A successful sign-up result for the unnamed variant. -/
def signUpOk : SignUpResult := { user := some { id := "u-1" }, error := none }

/-- C1: the registration validator is a pure, deterministic function that
returns either no error or exactly one error string (`Option String`), and it
agrees pointwise with the spec's ordered rule list (§4.1): required-fields,
then 13-digit ID, then phone pattern, then password length, then password
confirmation — the first failing rule's exact message wins. -/
theorem C1_validator_precedence (f : FormData) :
    validateForm f = specValidate f := by
  unfold validateForm specValidate specRules
  rw [show (! (f.idNumber.data.all Char.isDigit && decide (f.idNumber.length = 13)))
        = ! digits13 f.idNumber from rfl,
      specPhoneOk_eq_phoneRe]
  cases h1 : (f.name.isEmpty || f.surname.isEmpty || f.idNumber.isEmpty || f.phone.isEmpty
      || f.password.isEmpty || f.confirmPassword.isEmpty) <;>
    cases h2 : digits13 f.idNumber <;>
    cases h3 : phoneRe f.phone <;>
    cases h4 : decide (f.password.length < 8) <;>
    cases h5 : (f.password != f.confirmPassword) <;>
    simp [List.find?, h1, h2, h3, h4, h5]

/-- C2: for every registration submission that passes validation, if the
citizen lookup returns zero rows or a lookup error, the flow stops after the
lookup — the auth provider's sign-up is never called, nothing is navigated —
and the displayed error is exactly
`"No matching record found in government database."`. -/
theorem C2_lookup_failure_aborts (form : FormData) (env : RegEnv)
    (hv : validateForm form = none)
    (h : env.lookup.data = none ∨ env.lookup.error ≠ none) :
    (handleRegister form env).error
      = "No matching record found in government database."
    ∧ (handleRegister form env).calls = [ExtCall.citizenLookup]
    ∧ (handleRegister form env).navigations = [] := by
  have hcond : (env.lookup.error.isSome || env.lookup.data.isNone) = true := by
    rcases h with h | h
    · simp [h]
    · simp [Option.isSome_iff_ne_none, h]
  unfold handleRegister registerTry
  rw [hv, hcond]
  simp [jsOr]
  decide

theorem C2_witness :
    (handleRegister sampleForm envNoCitizen).error
      = "No matching record found in government database."
    ∧ (handleRegister sampleForm envNoCitizen).calls = [ExtCall.citizenLookup]
    ∧ (handleRegister sampleForm envNoCitizen).navigations = [] :=
  C2_lookup_failure_aborts sampleForm envNoCitizen (by decide) (Or.inl rfl)

/-- C3 counterexample: validation, lookup and sign-up succeed, and the linking
insert fails with the non-duplicate code `"500"` and an empty `message`; the
code displays the fallback `"Registration failed."`, not the error's message
(the empty string), so "that error's message is displayed" fails as stated. -/
theorem C3_counterexample :
    envInsertEmptyMsg.insert.error = some { message := "", code := "500" }
    ∧ validateForm sampleForm = none
    ∧ (handleRegister sampleForm envInsertEmptyMsg).error = "Registration failed."
    ∧ (handleRegister sampleForm envInsertEmptyMsg).error ≠ "" := by
  refine ⟨rfl, by decide, by decide, by decide⟩

/-- C3 (amended): with validation passed and the citizen lookup and auth
sign-up both successful, a linking-insert failure with code `'23505'` is
swallowed and the flow navigates to `/login` with no error; a failure with
any other code displays that error's message — or the default
`"Registration failed."` when the message is the empty string — and does not
navigate. -/
theorem C3_insert_error_handling (form : FormData) (env : RegEnv)
    (c : Citizen) (e : SbError)
    (hv : validateForm form = none)
    (hld : env.lookup.data = some c) (hle : env.lookup.error = none)
    (hse : env.signUp.error = none) (hie : env.insert.error = some e) :
    (e.code = "23505" →
      (handleRegister form env).navigations = ["/login"]
      ∧ (handleRegister form env).error = "")
    ∧ (e.code ≠ "23505" →
      (handleRegister form env).navigations = []
      ∧ (handleRegister form env).error = jsOr e.message "Registration failed.") := by
  unfold handleRegister registerTry
  rw [hv, hld, hle, hse, hie]
  constructor
  · intro hcode
    simp [hcode]
  · intro hcode
    simp [bne_iff_ne, hcode]

theorem C3_witness :
    (handleRegister sampleForm envInsertOther).navigations = []
    ∧ (handleRegister sampleForm envInsertOther).error
        = jsOr "boom" "Registration failed." :=
  (C3_insert_error_handling sampleForm envInsertOther sampleCitizen
      { message := "boom", code := "42P01" }
      (by decide) rfl rfl rfl rfl).2 (by decide)

/-- C4: for every login submission that passes validation, an HTTP-ok
response whose body carries token `"abc"` results in exactly one local
storage write, setting key `token` to `"abc"`, and exactly one navigation,
to `/home`, with no displayed error. -/
theorem C4_login_success (form : LoginForm) (resp : LoginResponse)
    (hv : validateLoginForm form = none)
    (hok : resp.ok = true)
    (ht : resp.body.token = some "abc") :
    (handleLogin form resp).storageWrites = [("token", "abc")]
    ∧ (handleLogin form resp).navigations = ["/home"]
    ∧ (handleLogin form resp).error = "" := by
  unfold handleLogin
  rw [hv, hok, ht]
  simp
  decide

theorem C4_witness :
    (handleLogin sampleLogin
        { ok := true, body := { token := some "abc", message := none } }).storageWrites
      = [("token", "abc")]
    ∧ (handleLogin sampleLogin
        { ok := true, body := { token := some "abc", message := none } }).navigations
      = ["/home"]
    ∧ (handleLogin sampleLogin
        { ok := true, body := { token := some "abc", message := none } }).error = "" :=
  C4_login_success sampleLogin
    { ok := true, body := { token := some "abc", message := none } }
    (by decide) rfl rfl

/-- C5 counterexample: a non-ok response whose `message` field is present but
equal to the empty string displays the default `"Login failed."`, not the
response's message, so "equals the response's message field when present"
fails as stated. -/
theorem C5_counterexample :
    (handleLogin sampleLogin
        { ok := false, body := { token := none, message := some "" } }).error
      = "Login failed."
    ∧ (handleLogin sampleLogin
        { ok := false, body := { token := none, message := some "" } }).error ≠ "" := by
  refine ⟨by decide, by decide⟩

/-- C5 (amended): for every login submission that passes validation, a non-ok
response displays the response's `message` field when it is present and
non-empty, and the default `"Login failed."` otherwise; no local-storage
write and no navigation occurs. -/
theorem C5_login_failure (form : LoginForm) (resp : LoginResponse)
    (hv : validateLoginForm form = none) (hok : resp.ok = false) :
    (handleLogin form resp).error
      = (match resp.body.message with
         | some m => if m.isEmpty then "Login failed." else m
         | none => "Login failed.")
    ∧ (handleLogin form resp).storageWrites = []
    ∧ (handleLogin form resp).navigations = [] := by
  unfold handleLogin
  rw [hv, hok]
  cases hm : resp.body.message with
  | none => simp [jsOrOpt, jsOr]; decide
  | some m =>
    cases he : m.isEmpty with
    | true => simp [jsOrOpt, jsOr, he]; decide
    | false => simp [jsOrOpt, jsOr, he]

theorem C5_witness :
    (handleLogin sampleLogin
        { ok := false, body := { token := none, message := some "bad creds" } }).error
      = "bad creds"
    ∧ (handleLogin sampleLogin
        { ok := false, body := { token := none, message := some "bad creds" } }).storageWrites
      = []
    ∧ (handleLogin sampleLogin
        { ok := false, body := { token := none, message := some "bad creds" } }).navigations
      = [] := by
  have h := C5_login_failure sampleLogin
    { ok := false, body := { token := none, message := some "bad creds" } }
    (by decide) rfl
  exact ⟨by rw [h.1]; decide, h.2.1, h.2.2⟩

/-- A registration form with an empty `name` and a malformed `idNumber`. -/
def formEmptyNameBadId : FormData :=
  { name := "", surname := "Botha", idNumber := "12AB",
    phone := "+27123456789", password := "password123",
    confirmPassword := "password123" }

/-- A fully filled registration form with a malformed `idNumber`. -/
def formFilledBadId : FormData :=
  { name := "Ann", surname := "Botha", idNumber := "12AB",
    phone := "+27123456789", password := "password123",
    confirmPassword := "password123" }

/-- C6 counterexample: with an empty `name` and a non-13-digit `idNumber`,
the validator returns the empty-fields message, not the ID-format error —
the empty-fields rule has precedence, so "regardless of ... emptiness of
every other field" fails as stated. -/
theorem C6_counterexample :
    digits13 formEmptyNameBadId.idNumber = false
    ∧ validateForm formEmptyNameBadId = some "Please fill in all fields."
    ∧ validateForm formEmptyNameBadId ≠ some "ID Number must be 13 digits." := by
  refine ⟨by decide, by decide, by decide⟩

/-- C6 (amended): whenever every required field is non-empty, an `idNumber`
that is not exactly 13 digits makes the validator return the ID-format error
regardless of the contents of every other field — on the registration screen
with message `"ID Number must be 13 digits."`, on the login screen with its
message `"ID must be 13 digits."`. -/
theorem C6_bad_id_wins_when_filled (f : FormData) (lf : LoginForm)
    (hn : f.name.isEmpty = false) (hs : f.surname.isEmpty = false)
    (hi : f.idNumber.isEmpty = false) (hp : f.phone.isEmpty = false)
    (hpw : f.password.isEmpty = false) (hc : f.confirmPassword.isEmpty = false)
    (hid : digits13 f.idNumber = false)
    (hli : lf.idNumber.isEmpty = false) (hlp : lf.password.isEmpty = false)
    (hlid : digits13 lf.idNumber = false) :
    validateForm f = some "ID Number must be 13 digits."
    ∧ validateLoginForm lf = some "ID must be 13 digits." := by
  unfold validateForm validateLoginForm
  simp [hn, hs, hi, hp, hpw, hc, hid, hli, hlp, hlid]

theorem C6_witness :
    validateForm formFilledBadId = some "ID Number must be 13 digits."
    ∧ validateLoginForm { idNumber := "12AB", password := "secretpw" }
      = some "ID must be 13 digits." :=
  C6_bad_id_wins_when_filled formFilledBadId
    { idNumber := "12AB", password := "secretpw" }
    (by decide) (by decide) (by decide) (by decide) (by decide) (by decide)
    (by decide) (by decide) (by decide) (by decide)

/-- C7 counterexample: on the login screen, with both fields non-empty and a
non-13-digit ID, the validator returns `"ID must be 13 digits."`, which is
not the claimed `"ID Number must be 13 digits."`. -/
theorem C7_counterexample :
    validateLoginForm { idNumber := "123", password := "secretpw" }
      = some "ID must be 13 digits."
    ∧ validateLoginForm { idNumber := "123", password := "secretpw" }
      ≠ some "ID Number must be 13 digits." := by
  refine ⟨by decide, by decide⟩

/-- C7 (amended): on the login screen, every submission with both fields
non-empty and an `idNumber` that is not exactly 13 digits yields exactly the
message `"ID must be 13 digits."` (the login screen's text differs from the
registration screen's `"ID Number must be 13 digits."`). -/
theorem C7_login_id_message (lf : LoginForm)
    (h1 : lf.idNumber.isEmpty = false) (h2 : lf.password.isEmpty = false)
    (h3 : digits13 lf.idNumber = false) :
    validateLoginForm lf = some "ID must be 13 digits." := by
  unfold validateLoginForm
  simp [h1, h2, h3]

theorem C7_witness :
    validateLoginForm { idNumber := "123", password := "secretpw" }
      = some "ID must be 13 digits." :=
  C7_login_id_message { idNumber := "123", password := "secretpw" }
    (by decide) (by decide) (by decide)

/-- The value of the loading flag after a run, starting from `false`. -/
def finalLoading (events : List Bool) : Bool :=
  events.getLastD false

/-- C8: in all three submit handlers, whenever validation passes (the run
reaches the network phase) the loading flag is set to `true` at the start and
unconditionally set back to `false` at the terminal resolution, whatever the
environment's outcome; and on every run — validation failure included — the
flag ends up `false`, so the UI is never left in the submitting state. -/
theorem C8_loading_cleared (lf : LoginForm) (resp : LoginResponse)
    (f : FormData) (env : RegEnv) (senv : SignUpResult) :
    ((handleLogin lf resp).loadingEvents
      = if validateLoginForm lf = none then [true, false] else [])
    ∧ ((handleRegister f env).loadingEvents
      = if validateForm f = none then [true, false] else [])
    ∧ ((handleRegisterV2 f senv).loadingEvents
      = if validateForm f = none then [true, false] else [])
    ∧ finalLoading (handleLogin lf resp).loadingEvents = false
    ∧ finalLoading (handleRegister f env).loadingEvents = false
    ∧ finalLoading (handleRegisterV2 f senv).loadingEvents = false := by
  have hlogin : (handleLogin lf resp).loadingEvents
      = if validateLoginForm lf = none then [true, false] else [] := by
    unfold handleLogin
    cases hv : validateLoginForm lf with
    | some msg => simp
    | none => cases hok : resp.ok <;> simp
  have hreg : (handleRegister f env).loadingEvents
      = if validateForm f = none then [true, false] else [] := by
    unfold handleRegister
    cases hv : validateForm f with
    | some msg => simp
    | none => simp
  have hreg2 : (handleRegisterV2 f senv).loadingEvents
      = if validateForm f = none then [true, false] else [] := by
    unfold handleRegisterV2
    cases hv : validateForm f with
    | some msg => simp
    | none => cases he : senv.error <;> simp
  refine ⟨hlogin, hreg, hreg2, ?_, ?_, ?_⟩
  · rw [hlogin]; cases hv : validateLoginForm lf <;> simp [finalLoading]
  · rw [hreg]; cases hv : validateForm f <;> simp [finalLoading]
  · rw [hreg2]; cases hv : validateForm f <;> simp [finalLoading]

/-- C9: whenever either registration handler issues an auth-provider sign-up
call, the email argument of that call is exactly
`"user" ++ idNumber ++ "@example.com"` for the submitted `idNumber` (in
`SignUp_Screen.tsx` the email is additionally trimmed, which never changes
it, as it starts with `'u'` and ends with `'m'`). -/
theorem C9_signup_email (form : FormData) (env : RegEnv) (senv : SignUpResult)
    (e p ph em pm nm sm im phm : String) :
    (ExtCall.authSignUp e p ph ∈ (handleRegister form env).calls →
      e = "user" ++ form.idNumber ++ "@example.com")
    ∧ (ExtCall.authSignUpMeta em pm nm sm im phm ∈ (handleRegisterV2 form senv).calls →
      em = "user" ++ form.idNumber ++ "@example.com") := by
  constructor
  · intro hmem
    unfold handleRegister registerTry at hmem
    cases hv : validateForm form with
    | some msg => rw [hv] at hmem; simp at hmem
    | none =>
      rw [hv] at hmem
      by_cases hl : (env.lookup.error.isSome || env.lookup.data.isNone) = true
      · rw [hl] at hmem; simp at hmem
      · rw [eq_false_of_ne_true hl] at hmem
        cases hd : env.lookup.data with
        | none => rw [hd] at hmem; simp at hmem
        | some citizen =>
          rw [hd] at hmem
          cases hs : env.signUp.error with
          | some err =>
            rw [hs] at hmem
            simp at hmem
            rcases hmem with ⟨he, _⟩
            rw [he, jsTrim_wrap]
          | none =>
            rw [hs] at hmem
            cases hi : env.insert.error with
            | some err =>
              rw [hi] at hmem
              by_cases hc : err.code = "23505"
              · simp [hc] at hmem
                rcases hmem with ⟨he, _⟩
                rw [he, jsTrim_wrap]
              · simp [bne_iff_ne, hc] at hmem
                rcases hmem with ⟨he, _⟩
                rw [he, jsTrim_wrap]
            | none =>
              rw [hi] at hmem
              simp at hmem
              rcases hmem with ⟨he, _⟩
              rw [he, jsTrim_wrap]
  · intro hmem
    unfold handleRegisterV2 at hmem
    cases hv : validateForm form with
    | some msg => rw [hv] at hmem; simp at hmem
    | none =>
      rw [hv] at hmem
      cases hs : senv.error with
      | some err =>
        rw [hs] at hmem
        simp at hmem
        exact hmem.1
      | none =>
        rw [hs] at hmem
        simp at hmem
        exact hmem.1

theorem C9_witness :
    ("user9001015009087@example.com"
      = "user" ++ sampleForm.idNumber ++ "@example.com")
    ∧ ("user9001015009087@example.com"
      = "user" ++ sampleForm.idNumber ++ "@example.com") := by
  have hmem : ExtCall.authSignUp "user9001015009087@example.com" "password123"
      "+27123456789" ∈ (handleRegister sampleForm envAllOk).calls := by decide
  have hmem2 : ExtCall.authSignUpMeta "user9001015009087@example.com" "password123"
      "Ann" "Botha" "9001015009087" "+27123456789"
      ∈ (handleRegisterV2 sampleForm signUpOk).calls := by decide
  have h := C9_signup_email sampleForm envAllOk signUpOk
    "user9001015009087@example.com" "password123" "+27123456789"
    "user9001015009087@example.com" "password123" "Ann" "Botha" "9001015009087"
    "+27123456789"
  exact ⟨h.1 hmem, h.2 hmem2⟩

/-- C10: in the unnamed sign-up variant (`part_000`), a submission that
passes validation issues exactly one external call — the auth sign-up with
profile metadata — and in particular no citizen lookup and no linking
insert; a successful sign-up alone leads to navigation to `/login` with no
error, and a provider error is displayed (via
`err.message || 'Registration failed.'`) with no navigation — the only
non-validation failure the flow can display. -/
theorem C10_variant_flow (form : FormData) (senv : SignUpResult)
    (hv : validateForm form = none) :
    (handleRegisterV2 form senv).calls
      = [ExtCall.authSignUpMeta ("user" ++ form.idNumber ++ "@example.com")
          form.password form.name form.surname form.idNumber form.phone]
    ∧ ExtCall.citizenLookup ∉ (handleRegisterV2 form senv).calls
    ∧ (∀ uid cid em ph,
        ExtCall.usersInsert uid cid em ph ∉ (handleRegisterV2 form senv).calls)
    ∧ (senv.error = none →
        (handleRegisterV2 form senv).navigations = ["/login"]
        ∧ (handleRegisterV2 form senv).error = "")
    ∧ (∀ err : SbError, senv.error = some err →
        (handleRegisterV2 form senv).navigations = []
        ∧ (handleRegisterV2 form senv).error
          = jsOr err.message "Registration failed.") := by
  unfold handleRegisterV2
  rw [hv]
  cases hs : senv.error with
  | some err => simp
  | none => simp

theorem C10_witness :
    (handleRegisterV2 sampleForm signUpOk).navigations = ["/login"]
    ∧ (handleRegisterV2 sampleForm signUpOk).error = "" :=
  (C10_variant_flow sampleForm signUpOk (by decide)).2.2.2.1 rfl

end EDocufy
